import Mathlib

/-!
Verification of the combat-resolution core of the repository
(src/combat/{effects,damage,actions,enemy,battle}.py and the player/stat
code it calls).  Python classes become Lean structures; mutation becomes
explicit state passing; Python floats are modelled as exact rationals;
the global `random` source is modelled as an explicit list of uniform
[0,1) draws consumed in order.
-/

namespace Magician

/-- Python `int(x)` on a float: truncation toward zero. -/
def pyInt (q : ℚ) : ℤ :=
  if 0 ≤ q then ⌊q⌋ else -⌊-q⌋

/-- Python integer floor division `a // b`. -/
def pyFloorDiv (a b : ℤ) : ℤ := Int.fdiv a b

/-- Injectable randomness: the list of uniform [0,1) draws still to come. -/
abbrev Rng := List ℚ

/-- Consume one `random.random()` draw (0 if the oracle is exhausted). -/
def draw : Rng → ℚ × Rng
  | [] => (0, [])
  | d :: r => (d, r)

/-- `random.uniform a b`: one draw mapped affinely onto [a, b). -/
def uniformDraw (a b : ℚ) (rng : Rng) : ℚ × Rng :=
  let (u, rng') := draw rng
  (a + (b - a) * u, rng')

/-- Python `str.lower()` (per-character lowercasing; the action names are
ASCII, for which this agrees with `str.lower`). -/
def pyLower (s : String) : String := ⟨s.data.map Char.toLower⟩

/-! ## src/combat/effects.py -/

/-- `EffectType` enum from effects.py. -/
inductive EffectType where
  | bleeding
  | burning
  | poison
  | stunned
  | frozen
  | paralyzed
  | weakened
  | slowed
  | confused
  | strengthened
  | shielded
  | hastened
  | regenerating
deriving DecidableEq, Repr

/-- `StatusEffect` dataclass from effects.py. -/
structure StatusEffect where
  effect_type : EffectType
  duration : ℤ
  potency : ℤ
  source : String
deriving DecidableEq, Repr

/-- `EffectManager`: the `active_effects` dict, modelled as an
insertion-ordered association list keyed by `effect_type`. -/
structure EffectManager where
  active_effects : List StatusEffect
deriving DecidableEq, Repr

namespace EffectManager

/-- `self.active_effects.get(effect_type)` (first entry of that type). -/
def get_effect (m : EffectManager) (t : EffectType) : Option StatusEffect :=
  m.active_effects.find? (fun e => e.effect_type == t)

/-- `effect_type in self.active_effects`. -/
def has_effect (m : EffectManager) (t : EffectType) : Bool :=
  (m.get_effect t).isSome

/-- `EffectManager.add_effect`: keep the stronger instance of a type.
Replacing a dict value keeps its position; inserting a new key appends. -/
def add_effect (m : EffectManager) (e : StatusEffect) : EffectManager × Bool :=
  match m.get_effect e.effect_type with
  | some existing =>
      if e.potency > existing.potency ∨ e.duration > existing.duration then
        (⟨m.active_effects.map
            (fun x => if x.effect_type == e.effect_type then e else x)⟩, true)
      else
        (m, false)
  | none => (⟨m.active_effects ++ [e]⟩, true)

/-- The per-turn delta an effect contributes in `tick_effects`
(damage positive, regeneration negative, nothing otherwise). -/
def tickDelta (e : StatusEffect) : Option (EffectType × ℤ) :=
  if e.effect_type == .bleeding ∨ e.effect_type == .burning
      ∨ e.effect_type == .poison then
    some (e.effect_type, e.potency)
  else if e.effect_type == .regenerating then
    some (e.effect_type, -e.potency)
  else
    none

/-- `EffectManager.tick_effects`: collect per-effect deltas, decrement every
duration, drop entries whose duration reached 0. -/
def tick_effects (m : EffectManager) : List (EffectType × ℤ) × EffectManager :=
  let results := m.active_effects.filterMap tickDelta
  let ticked := m.active_effects.map (fun e => { e with duration := e.duration - 1 })
  (results, ⟨ticked.filter (fun e => decide (0 < e.duration))⟩)

/-- `EffectManager.is_incapacitated`. -/
def is_incapacitated (m : EffectManager) : Bool :=
  m.has_effect .stunned || m.has_effect .frozen || m.has_effect .paralyzed

/-- `EffectManager.get_damage_modifier`. -/
def get_damage_modifier (m : EffectManager) : ℚ :=
  (if m.has_effect .strengthened then (3 : ℚ)/2 else 1) *
    (if m.has_effect .weakened then (1 : ℚ)/2 else 1)

/-- `EffectManager.get_defense_modifier`. -/
def get_defense_modifier (m : EffectManager) : ℚ :=
  match m.get_effect .shielded with
  | some e => 1 + (e.potency : ℚ) / 100
  | none => 1

end EffectManager

/-- `create_bleeding` (defaults duration=3, damage=5). -/
def create_bleeding (duration : ℤ := 3) (damage_per_turn : ℤ := 5) : StatusEffect :=
  ⟨.bleeding, duration, damage_per_turn, "bleeding wound"⟩

/-- `create_stun` (default duration=1). -/
def create_stun (duration : ℤ := 1) : StatusEffect :=
  ⟨.stunned, duration, 0, "stunning blow"⟩

/-- `create_shield` (defaults duration=3, defense_bonus=30). -/
def create_shield (duration : ℤ := 3) (defense_bonus : ℤ := 30) : StatusEffect :=
  ⟨.shielded, duration, defense_bonus, "defensive shield"⟩

/-- `create_regeneration` (defaults duration=3, heal_per_turn=10). -/
def create_regeneration (duration : ℤ := 3) (heal_per_turn : ℤ := 10) : StatusEffect :=
  ⟨.regenerating, duration, heal_per_turn, "regeneration"⟩

/-! ## src/combat/damage.py -/

/-- `DamageType` enum (`TRUE` renamed `trueDamage`). -/
inductive DamageType where
  | physical
  | magical
  | fire
  | cold
  | lightning
  | poison
  | trueDamage
deriving DecidableEq, Repr

/-- `AttackType` enum. -/
inductive AttackType where
  | light
  | normal
  | heavy
  | critical
deriving DecidableEq, Repr

namespace DamageCalculator

def BASE_CRIT_CHANCE : ℚ := 5/100
def CRIT_MULTIPLIER : ℚ := 2
def BASE_HIT_CHANCE : ℚ := 85/100

/-- `DamageCalculator._calculate_hit_chance`. -/
def calculate_hit_chance (attacker_stat defender_defense : ℤ) : ℚ :=
  let stat_diff : ℚ := (attacker_stat : ℚ) - (defender_defense : ℚ)
  let hit_mod := stat_diff * (2/100)
  max (1/10) (min (95/100) (BASE_HIT_CHANCE + hit_mod))

/-- `DamageCalculator._calculate_crit_chance`. -/
def calculate_crit_chance (primary_stat : ℤ) : ℚ :=
  let crit_bonus : ℚ := (max 0 (primary_stat - 10) : ℤ) * (1/100)
  min (1/2) (BASE_CRIT_CHANCE + crit_bonus)

/-- `DamageCalculator._apply_defense`. -/
def apply_defense (damage defense : ℤ) (damage_type : DamageType) : ℤ :=
  if damage_type == .trueDamage then damage
  else
    let reduction : ℚ := (defense : ℚ) / ((defense : ℚ) + 100)
    let reduced_damage : ℚ := (damage : ℚ) * (1 - reduction)
    max 1 (pyInt reduced_damage)

/-- `DamageCalculator.calculate_physical_damage`: returns
`((damage, is_hit, is_critical), remaining draws)`. -/
def calculate_physical_damage (attacker_strength defender_defense base_damage : ℤ)
    (attack_type : AttackType) (rng : Rng) : (ℤ × Bool × Bool) × Rng :=
  let hit_chance := calculate_hit_chance attacker_strength defender_defense
  let (r1, rng) := draw rng
  if r1 < hit_chance then
    let crit_chance := calculate_crit_chance attacker_strength
    let (r2, rng) := draw rng
    let is_critical := decide (r2 < crit_chance)
    let damage := base_damage
    let damage :=
      if attack_type == .light then pyInt ((damage : ℚ) * (7/10))
      else if attack_type == .heavy then pyInt ((damage : ℚ) * (13/10))
      else damage
    let str_bonus := max 0 (pyFloorDiv (attacker_strength - 10) 2)
    let damage := damage + str_bonus
    let damage := apply_defense damage defender_defense .physical
    let damage := if is_critical then pyInt ((damage : ℚ) * CRIT_MULTIPLIER) else damage
    let (variance, rng) := uniformDraw (9/10) (11/10) rng
    let damage := pyInt ((damage : ℚ) * variance)
    ((max 1 damage, true, is_critical), rng)
  else
    ((0, false, false), rng)

/-- `DamageCalculator.calculate_magical_damage`: returns
`((damage, is_critical), remaining draws)`.  Magic always hits. -/
def calculate_magical_damage (caster_intelligence caster_willpower
    defender_willpower base_damage : ℤ) (rng : Rng) : (ℤ × Bool) × Rng :=
  let spell_power := caster_intelligence + caster_willpower
  let spell_bonus := max 0 (pyFloorDiv (spell_power - 20) 3)
  let damage := base_damage + spell_bonus
  let resistance := max 0 (pyFloorDiv (defender_willpower - 10) 2)
  let damage := max 1 (damage - resistance)
  let crit_chance := calculate_crit_chance caster_intelligence
  let (r, rng) := draw rng
  let is_critical := decide (r < crit_chance)
  let damage := if is_critical then pyInt ((damage : ℚ) * CRIT_MULTIPLIER) else damage
  let (variance, rng) := uniformDraw (9/10) (11/10) rng
  let damage := pyInt ((damage : ℚ) * variance)
  ((max 1 damage, is_critical), rng)

/-- `DamageCalculator.calculate_healing`. -/
def calculate_healing (caster_willpower base_healing : ℤ) (rng : Rng) : ℤ × Rng :=
  let will_bonus := max 0 (pyFloorDiv (caster_willpower - 10) 2)
  let healing := base_healing + will_bonus
  let (variance, rng) := uniformDraw (85/100) (115/100) rng
  let healing := pyInt ((healing : ℚ) * variance)
  (max 1 healing, rng)

/-- `DamageCalculator.calculate_flee_chance`. -/
def calculate_flee_chance (player_agility enemy_agility : ℤ) : ℚ :=
  let base_chance : ℚ := 1/2
  let agi_diff : ℚ := (player_agility : ℚ) - (enemy_agility : ℚ)
  let flee_mod := agi_diff * (5/100)
  max (2/10) (min (9/10) (base_chance + flee_mod))

end DamageCalculator

/-! ## src/character/stats.py -/

/-- `CoreAttributes` dataclass. -/
structure CoreAttributes where
  strength : ℤ
  constitution : ℤ
  agility : ℤ
  intelligence : ℤ
  willpower : ℤ
  charisma : ℤ
deriving DecidableEq, Repr

/-- `DerivedStats` dataclass. -/
structure DerivedStats where
  max_health : ℤ
  current_health : ℤ
  max_mana : ℤ
  current_mana : ℤ
  max_stamina : ℤ
  current_stamina : ℤ
  carry_capacity : ℤ
  initiative : ℤ
deriving DecidableEq, Repr

namespace StatCalculator

/-- `StatCalculator.calculate_defense`. -/
def calculate_defense (agility constitution : ℤ) : ℤ :=
  agility + pyFloorDiv constitution 3

/-- `StatCalculator.calculate_physical_damage_bonus`. -/
def calculate_physical_damage_bonus (strength : ℤ) : ℤ :=
  max 0 (pyFloorDiv (strength - 10) 2)

end StatCalculator

/-! ## src/character/player.py (combat-relevant parts) -/

/-- `PlayerCharacter` restricted to the state the combat engine reads or
writes.  `effect_manager` mirrors the attribute battle.py assumes the player
has (player.py itself never assigns one: the `"Shield"` branch would raise
`AttributeError` at runtime, a latent defect outside the claims checked
here). -/
structure PlayerCharacter where
  path : String
  attributes : CoreAttributes
  derived_stats : DerivedStats
  abilities : List String
  effect_manager : EffectManager
deriving DecidableEq, Repr

namespace PlayerCharacter

/-- `PlayerCharacter.has_ability`. -/
def has_ability (p : PlayerCharacter) (ability_name : String) : Bool :=
  p.abilities.contains ability_name

/-- `PlayerCharacter.is_alive`. -/
def is_alive (p : PlayerCharacter) : Bool :=
  decide (0 < p.derived_stats.current_health)

/-- `PlayerCharacter.take_damage` (no clamping above, floor at 0);
returns the updated player and the still-alive flag. -/
def take_damage (p : PlayerCharacter) (amount : ℤ) : PlayerCharacter × Bool :=
  let h := max 0 (p.derived_stats.current_health - amount)
  ({ p with derived_stats := { p.derived_stats with current_health := h } },
   decide (0 < h))

/-- `PlayerCharacter.heal`. -/
def heal (p : PlayerCharacter) (amount : ℤ) : PlayerCharacter :=
  let h := min p.derived_stats.max_health (p.derived_stats.current_health + amount)
  { p with derived_stats := { p.derived_stats with current_health := h } }

/-- `PlayerCharacter.use_mana`: debit on sufficiency, returns success. -/
def use_mana (p : PlayerCharacter) (amount : ℤ) : Bool × PlayerCharacter :=
  if amount ≤ p.derived_stats.current_mana then
    (true, { p with derived_stats :=
        { p.derived_stats with current_mana := p.derived_stats.current_mana - amount } })
  else
    (false, p)

/-- `PlayerCharacter.use_stamina`: debit on sufficiency, returns success. -/
def use_stamina (p : PlayerCharacter) (amount : ℤ) : Bool × PlayerCharacter :=
  if amount ≤ p.derived_stats.current_stamina then
    (true, { p with derived_stats :=
        { p.derived_stats with current_stamina := p.derived_stats.current_stamina - amount } })
  else
    (false, p)

/-- The `'defense'` entry of `PlayerCharacter.get_combat_stats`. -/
def combat_defense (p : PlayerCharacter) : ℤ :=
  StatCalculator.calculate_defense p.attributes.agility p.attributes.constitution

end PlayerCharacter

/-! ## src/combat/enemy.py -/

/-- `Enemy` (combat-relevant state). -/
structure Enemy where
  name : String
  level : ℤ
  attributes : CoreAttributes
  base_damage : ℤ
  abilities : List String
  derived_stats : DerivedStats
  xp_reward : ℤ
  gold_reward : ℤ
  effect_manager : EffectManager
  is_defending : Bool
deriving DecidableEq, Repr

namespace Enemy

/-- `Enemy.is_alive`. -/
def is_alive (e : Enemy) : Bool :=
  decide (0 < e.derived_stats.current_health)

/-- `Enemy.take_damage`: damage divided by the effect defense modifier,
health floored at 0; returns the updated enemy and the alive flag. -/
def take_damage (e : Enemy) (amount : ℤ) : Enemy × Bool :=
  let defense_mod := e.effect_manager.get_defense_modifier
  let modified_damage := pyInt ((amount : ℚ) / defense_mod)
  let h := max 0 (e.derived_stats.current_health - modified_damage)
  let e' := { e with derived_stats := { e.derived_stats with current_health := h } }
  (e', e'.is_alive)

/-- The `'defense'` entry of `Enemy.get_combat_stats`. -/
def combat_defense (e : Enemy) : ℤ :=
  StatCalculator.calculate_defense e.attributes.agility e.attributes.constitution

end Enemy

/-! ## src/combat/actions.py -/

/-- `ActionCategory` enum. -/
inductive ActionCategory where
  | attack
  | defend
  | spell
  | item
  | flee
deriving DecidableEq, Repr

/-- `CombatAction` dataclass. -/
structure CombatAction where
  name : String
  category : ActionCategory
  description : String
  stamina_cost : ℤ := 0
  mana_cost : ℤ := 0
  requires_target : Bool := true
  is_unlocked : PlayerCharacter → Bool := fun _ => true

namespace CombatAction

/-- `CombatAction.can_use`: note that the resource checks are made by
calling `use_stamina` / `use_mana`, which debit on success; the possibly
modified player is returned alongside the verdict. -/
def can_use (a : CombatAction) (player : PlayerCharacter) :
    (Bool × String) × PlayerCharacter :=
  if !(a.is_unlocked player) then ((false, "Ability not unlocked"), player)
  else
    let (st_ok, player) :=
      if 0 < a.stamina_cost then player.use_stamina a.stamina_cost else (true, player)
    if !st_ok then ((false, "Not enough stamina"), player)
    else
      let (mn_ok, player) :=
        if 0 < a.mana_cost then player.use_mana a.mana_cost else (true, player)
      if !mn_ok then ((false, "Not enough mana"), player)
      else ((true, ""), player)

end CombatAction

namespace WarriorActions

def light_attack : CombatAction :=
  { name := "Light Attack", category := .attack,
    description := "A quick, light attack (70% damage, more accurate)",
    stamina_cost := 5 }

def normal_attack : CombatAction :=
  { name := "Attack", category := .attack,
    description := "A standard attack", stamina_cost := 10 }

def heavy_attack : CombatAction :=
  { name := "Heavy Attack", category := .attack,
    description := "A powerful heavy attack (130% damage, less accurate)",
    stamina_cost := 20 }

def power_strike : CombatAction :=
  { name := "Power Strike", category := .attack,
    description := "A mighty strike that may cause bleeding",
    stamina_cost := 25, is_unlocked := fun p => p.has_ability "Power Strike" }

def shield_bash : CombatAction :=
  { name := "Shield Bash", category := .attack,
    description := "Bash enemy with shield, chance to stun",
    stamina_cost := 20, is_unlocked := fun p => p.has_ability "Shield Bash" }

def whirlwind : CombatAction :=
  { name := "Whirlwind Attack", category := .attack,
    description := "Spin attack hitting all enemies (80% damage each)",
    stamina_cost := 40, requires_target := false,
    is_unlocked := fun p => p.has_ability "Whirlwind Attack" }

def battle_cry : CombatAction :=
  { name := "Battle Cry", category := .defend,
    description := "Rallying cry that strengthens your attacks",
    stamina_cost := 15, requires_target := false,
    is_unlocked := fun p => p.has_ability "Battle Cry" }

def defend : CombatAction :=
  { name := "Defend", category := .defend,
    description := "Take a defensive stance, reducing damage",
    stamina_cost := 5, requires_target := false }

def berserk : CombatAction :=
  { name := "Berserk Rage", category := .attack,
    description := "Enter a rage, greatly increasing damage but reducing defense",
    stamina_cost := 50, requires_target := false,
    is_unlocked := fun p => p.has_ability "Berserk Rage" }

end WarriorActions

namespace MageActions

def staff_attack : CombatAction :=
  { name := "Staff Attack", category := .attack,
    description := "Strike with your staff (physical attack)", stamina_cost := 8 }

def minor_fireball : CombatAction :=
  { name := "Minor Fireball", category := .spell,
    description := "Hurl a small ball of fire at the enemy",
    mana_cost := 10, is_unlocked := fun p => p.has_ability "Minor Fireball" }

def shield_spell : CombatAction :=
  { name := "Shield", category := .spell,
    description := "Conjure a magical shield for protection",
    mana_cost := 15, requires_target := false,
    is_unlocked := fun p => p.has_ability "Shield" }

def heal : CombatAction :=
  { name := "Heal", category := .spell,
    description := "Restore health with healing magic",
    mana_cost := 20, requires_target := false,
    is_unlocked := fun p => p.has_ability "Heal" }

def lightning_bolt : CombatAction :=
  { name := "Lightning Bolt", category := .spell,
    description := "Strike enemy with a bolt of lightning",
    mana_cost := 25, is_unlocked := fun p => p.has_ability "Lightning Bolt" }

def greater_fireball : CombatAction :=
  { name := "Greater Fireball", category := .spell,
    description := "Unleash a massive fireball (high damage, may burn)",
    mana_cost := 35, is_unlocked := fun p => p.has_ability "Greater Fireball" }

def invisibility : CombatAction :=
  { name := "Invisibility", category := .spell,
    description := "Turn invisible, greatly improving flee chance",
    mana_cost := 30, requires_target := false,
    is_unlocked := fun p => p.has_ability "Invisibility" }

def rift_magic : CombatAction :=
  { name := "Rift Magic", category := .spell,
    description := "Tear open a rift in space (massive damage)",
    mana_cost := 60, is_unlocked := fun p => p.has_ability "Rift Magic" }

end MageActions

namespace ActionRegistry

def warrior_actions : List CombatAction :=
  [WarriorActions.light_attack, WarriorActions.normal_attack,
   WarriorActions.heavy_attack, WarriorActions.power_strike,
   WarriorActions.shield_bash, WarriorActions.whirlwind,
   WarriorActions.battle_cry, WarriorActions.defend, WarriorActions.berserk]

def mage_actions : List CombatAction :=
  [MageActions.staff_attack, MageActions.minor_fireball,
   MageActions.shield_spell, MageActions.heal, MageActions.lightning_bolt,
   MageActions.greater_fireball, MageActions.invisibility, MageActions.rift_magic]

/-- `ActionRegistry.get_available_actions`. -/
def get_available_actions (player : PlayerCharacter) : List CombatAction :=
  (if player.path == "tomas" then warrior_actions else mage_actions).filter
    (fun a => a.is_unlocked player)

/-- `ActionRegistry.get_action_by_name` (case-insensitive). -/
def get_action_by_name (name : String) (player : PlayerCharacter) :
    Option CombatAction :=
  (get_available_actions player).find? (fun a => pyLower a.name == pyLower name)

end ActionRegistry

/-! ## src/combat/enemy.py — EnemyAI -/

/-- The result dict of `EnemyAI.execute_action`, with the defaults
battle.py assumes when reading missing keys (`hit` defaults to `True`). -/
structure EnemyActionResult where
  action : String
  damage : ℤ
  hit : Bool := true
  critical : Bool := false
  message : String
deriving DecidableEq, Repr

namespace EnemyAI

/-- `EnemyAI.aggression` (set to 0.7 for every enemy). -/
def aggression : ℚ := 7/10

/-- `random.choice(["special", "attack", "attack"])`, modelled as one
uniform draw selecting an index. -/
def choose_special_or_attack (rng : Rng) : String × Rng :=
  let (u, rng) := draw rng
  (if u < 1/3 then "special" else "attack", rng)

/-- `EnemyAI.choose_action` (the `player_health_percent` argument is
accepted and ignored, as in the source). -/
def choose_action (enemy : Enemy) (_player_health_percent : ℚ) (rng : Rng) :
    String × Rng :=
  if enemy.effect_manager.is_incapacitated then ("incapacitated", rng)
  else
    let enemy_health_percent : ℚ :=
      (enemy.derived_stats.current_health : ℚ) / (enemy.derived_stats.max_health : ℚ)
    let (low_draw, rng) :=
      if enemy_health_percent < 3/10 then draw rng else (1, rng)
    if enemy_health_percent < 3/10 ∧ low_draw < 4/10 then ("defend", rng)
    else
      let (spec_draw, rng) :=
        if !enemy.abilities.isEmpty then draw rng else (1, rng)
      if !enemy.abilities.isEmpty ∧ spec_draw < 3/10 then
        choose_special_or_attack rng
      else
        let (aggr_draw, rng) := draw rng
        if aggr_draw < aggression then
          let (attack_roll, rng) := draw rng
          if attack_roll < 1/10 then ("heavy_attack", rng)
          else if attack_roll < 3/10 then ("light_attack", rng)
          else ("attack", rng)
        else ("defend", rng)

/-- `EnemyAI.execute_action`. -/
def execute_action (enemy : Enemy) (action : String) (target_defense : ℤ)
    (rng : Rng) : EnemyActionResult × Enemy × Rng :=
  if action == "incapacitated" then
    ({ action := action, damage := 0,
       message := enemy.name ++ " is incapacitated!" }, enemy, rng)
  else if action == "defend" then
    ({ action := action, damage := 0,
       message := enemy.name ++ " takes a defensive stance!" },
     { enemy with is_defending := true }, rng)
  else if action == "attack" ∨ action == "light_attack" ∨ action == "heavy_attack" then
    let attack_type : AttackType :=
      if action == "light_attack" then .light
      else if action == "heavy_attack" then .heavy
      else .normal
    let damage_mod := enemy.effect_manager.get_damage_modifier
    let ((damage, hit, crit), rng) :=
      DamageCalculator.calculate_physical_damage enemy.attributes.strength
        target_defense (pyInt ((enemy.base_damage : ℚ) * damage_mod)) attack_type rng
    let message :=
      if !hit then enemy.name ++ "'s attack misses!"
      else if crit then enemy.name ++ " lands a CRITICAL hit!"
      else enemy.name ++ " attacks!"
    ({ action := action, damage := damage, hit := hit, critical := crit,
       message := message }, enemy, rng)
  else if action == "special" then
    let ((damage, crit), rng) :=
      DamageCalculator.calculate_magical_damage enemy.attributes.intelligence
        enemy.attributes.willpower 10 (pyInt ((enemy.base_damage : ℚ) * (3/2))) rng
    ({ action := action, damage := damage, critical := crit,
       message := enemy.name ++ " uses a special ability!" }, enemy, rng)
  else
    ({ action := "unknown", damage := 0,
       message := enemy.name ++ " does nothing." }, enemy, rng)

end EnemyAI

/-! ## src/combat/battle.py -/

/-- `BattleResult` enum. -/
inductive BattleResult where
  | victory
  | defeat
  | fled
  | ongoing
deriving DecidableEq, Repr

/-- `Battle` state (the write-only `battle_log` is omitted; `enemy_ais`
carry no state beyond the constant aggression). -/
structure Battle where
  player : PlayerCharacter
  enemies : List Enemy
  turn_number : ℤ := 0
  result : BattleResult := .ongoing
  player_defending : Bool := false
deriving DecidableEq, Repr

/-- The result dict built by `Battle._execute_player_action`; keys absent
from some branches are `Option`s. -/
structure ActionResult where
  action : String
  damage : ℤ := 0
  effects : List String := []
  message : String := ""
  hit : Option Bool := none
  critical : Option Bool := none
  target : Option String := none
  healing : Option ℤ := none
deriving DecidableEq, Repr

/-- The return value of `Battle.player_turn`: either an `{'error': ...}`
dict or a turn-result dict, possibly extended with the victory keys. -/
inductive PlayerTurnOutcome where
  | error (msg : String)
  | ok (r : ActionResult) (battle_result : Option BattleResult)
      (rewards : Option (ℤ × ℤ))
deriving DecidableEq, Repr

/-- The return value of `Battle.enemy_turn`. -/
inductive EnemyTurnOutcome where
  | skipped (reason : String)
  | incapacitated (enemy_name : String) (message : String)
  | acted (enemy_name : String) (r : EnemyActionResult)
deriving DecidableEq, Repr

/-- The return value of `Battle.attempt_flee`. -/
inductive FleeOutcome where
  | success
  | failure
deriving DecidableEq, Repr

namespace Battle

/-- `Battle._calculate_rewards`: `(xp, gold)` summed over all enemies. -/
def calculate_rewards (b : Battle) : ℤ × ℤ :=
  ((b.enemies.map (fun e => e.xp_reward)).sum,
   (b.enemies.map (fun e => e.gold_reward)).sum)

/-- A placeholder enemy for the (unreachable) out-of-range target access
inside `_execute_player_action`; `player_turn` validates the index first. -/
def dummyEnemy : Enemy :=
  { name := "", level := 0, attributes := ⟨0, 0, 0, 0, 0, 0⟩, base_damage := 0,
    abilities := [], derived_stats := ⟨0, 0, 0, 0, 0, 0, 0, 0⟩, xp_reward := 0,
    gold_reward := 0, effect_manager := ⟨[]⟩, is_defending := false }

/-- `Battle._execute_player_action` (target passed as an index into
`enemies`, which the caller has validated when the action requires one). -/
def execute_player_action (b : Battle) (action : CombatAction)
    (tIdx : Option ℕ) (rng : Rng) : ActionResult × Battle × Rng :=
  let an := action.name
  let i := tIdx.getD 0
  let target := b.enemies.getD i dummyEnemy
  if an == "Light Attack" ∨ an == "Attack" ∨ an == "Heavy Attack"
      ∨ an == "Staff Attack" then
    let attack_type : AttackType :=
      if an == "Light Attack" then .light
      else if an == "Heavy Attack" then .heavy
      else .normal
    let base_damage : ℤ := 15
    let ((damage, hit, crit), rng) :=
      DamageCalculator.calculate_physical_damage b.player.attributes.strength
        target.combat_defense base_damage attack_type rng
    if hit then
      let (target, _) := target.take_damage damage
      let b := { b with enemies := b.enemies.set i target }
      let message :=
        if crit then
          "CRITICAL HIT! You deal " ++ toString damage ++ " damage to "
            ++ target.name ++ "!"
        else "You deal " ++ toString damage ++ " damage to " ++ target.name ++ "!"
      ({ action := an, damage := damage, hit := some true, critical := some crit,
         target := some target.name, message := message }, b, rng)
    else
      ({ action := an, hit := some false, message := "Your attack misses!" }, b, rng)
  else if an == "Power Strike" then
    let base_damage : ℤ := 25
    let ((damage, hit, crit), rng) :=
      DamageCalculator.calculate_physical_damage b.player.attributes.strength
        target.combat_defense base_damage .heavy rng
    if hit then
      let (target, _) := target.take_damage damage
      let (bleed_draw, rng) := draw rng
      let (target, applied_effects) :=
        if bleed_draw < 3/10 then
          ({ target with effect_manager :=
              (target.effect_manager.add_effect (create_bleeding 3 5)).1 },
           ["bleeding"])
        else (target, [])
      let b := { b with enemies := b.enemies.set i target }
      ({ action := an, damage := damage, hit := some true, critical := some crit,
         target := some target.name, effects := applied_effects,
         message := "Powerful strike! " ++ toString damage ++ " damage to "
           ++ target.name ++ "!" }, b, rng)
    else
      ({ action := an, hit := some false,
         message := "Your power strike misses!" }, b, rng)
  else if an == "Shield Bash" then
    let ((damage, hit, _crit), rng) :=
      DamageCalculator.calculate_physical_damage b.player.attributes.strength
        target.combat_defense 10 .normal rng
    if hit then
      let (target, _) := target.take_damage damage
      let (stun_draw, rng) := draw rng
      if stun_draw < 1/2 then
        let target := { target with effect_manager :=
            (target.effect_manager.add_effect (create_stun 1)).1 }
        let b := { b with enemies := b.enemies.set i target }
        ({ action := an, damage := damage, hit := some true,
           target := some target.name, effects := ["stunned"],
           message := "Shield bash! " ++ toString damage ++ " damage and "
             ++ target.name ++ " is stunned!" }, b, rng)
      else
        let b := { b with enemies := b.enemies.set i target }
        ({ action := an, damage := damage, hit := some true,
           target := some target.name,
           message := "Shield bash! " ++ toString damage ++ " damage to "
             ++ target.name ++ "!" }, b, rng)
    else
      ({ action := an, hit := some false,
         message := "Your shield bash misses!" }, b, rng)
  else if an == "Defend" then
    ({ action := an, message := "You take a defensive stance!" },
     { b with player_defending := true }, rng)
  else if an == "Minor Fireball" ∨ an == "Greater Fireball"
      ∨ an == "Lightning Bolt" then
    let base_damage : ℤ :=
      if an == "Minor Fireball" then 20
      else if an == "Greater Fireball" then 40
      else 35
    let ((damage, crit), rng) :=
      DamageCalculator.calculate_magical_damage b.player.attributes.intelligence
        b.player.attributes.willpower target.attributes.willpower base_damage rng
    let (target, _) := target.take_damage damage
    let b := { b with enemies := b.enemies.set i target }
    let message :=
      if crit then "CRITICAL! Your " ++ an ++ " deals " ++ toString damage ++ " damage!"
      else "Your " ++ an ++ " deals " ++ toString damage ++ " damage to "
        ++ target.name ++ "!"
    ({ action := an, damage := damage, critical := some crit,
       target := some target.name, message := message }, b, rng)
  else if an == "Heal" then
    let (healing, rng) :=
      DamageCalculator.calculate_healing b.player.attributes.willpower 30 rng
    let b := { b with player := b.player.heal healing }
    ({ action := an, healing := some healing,
       message := "You restore " ++ toString healing ++ " health!" }, b, rng)
  else if an == "Shield" then
    let b := { b with player := { b.player with effect_manager :=
        (b.player.effect_manager.add_effect (create_shield 3 30)).1 } }
    ({ action := an, effects := ["shielded"],
       message := "A magical shield surrounds you!" }, b, rng)
  else
    ({ action := an, message := "You use " ++ an ++ "! (not fully implemented)" },
     b, rng)

/-- `Battle.player_turn`. -/
def player_turn (b : Battle) (action_name : String) (target_index : ℤ)
    (rng : Rng) : PlayerTurnOutcome × Battle × Rng :=
  if b.result ≠ .ongoing then (.error "Battle is already over", b, rng)
  else
    match ActionRegistry.get_action_by_name action_name b.player with
    | none => (.error ("Unknown or unavailable action: " ++ action_name), b, rng)
    | some action =>
        let ((ok, reason), p') := action.can_use b.player
        let b := { b with player := p' }
        if !ok then (.error reason, b, rng)
        else if action.requires_target
            ∧ ((b.enemies.length : ℤ) ≤ target_index ∨ target_index < 0) then
          (.error "Invalid target", b, rng)
        else
          let tIdx : Option ℕ :=
            if action.requires_target then some target_index.toNat else none
          let (result, b, rng) := b.execute_player_action action tIdx rng
          if b.enemies.all (fun e => !e.is_alive) then
            let b := { b with result := .victory }
            ((.ok result (some .victory) (some b.calculate_rewards)), b, rng)
          else ((.ok result none none), b, rng)

/-- `Battle.enemy_turn` (`none` models the `IndexError` Python raises on an
out-of-range index). -/
def enemy_turn (b : Battle) (enemy_index : ℕ) (rng : Rng) :
    Option (EnemyTurnOutcome × Battle × Rng) :=
  match b.enemies.get? enemy_index with
  | none => none
  | some enemy =>
      if !enemy.is_alive then some (.skipped "Enemy is defeated", b, rng)
      else
        let (effect_results, em') := enemy.effect_manager.tick_effects
        let enemy := { enemy with effect_manager := em' }
        let effect_damage :=
          ((effect_results.map Prod.snd).filter (fun d => decide (0 < d))).sum
        let enemy :=
          if 0 < effect_damage then (enemy.take_damage effect_damage).1 else enemy
        let b := { b with enemies := b.enemies.set enemy_index enemy }
        if enemy.effect_manager.is_incapacitated then
          some (.incapacitated enemy.name
            (enemy.name ++ " is incapacitated and cannot act!"), b, rng)
        else
          let player_health_pct : ℚ :=
            (b.player.derived_stats.current_health : ℚ)
              / (b.player.derived_stats.max_health : ℚ)
          let (action, rng) := EnemyAI.choose_action enemy player_health_pct rng
          let (result, enemy, rng) :=
            EnemyAI.execute_action enemy action b.player.combat_defense rng
          let b := { b with enemies := b.enemies.set enemy_index enemy }
          if 0 < result.damage ∧ result.hit then
            let damage := result.damage
            let (damage, result) :=
              if b.player_defending then
                (pyInt ((damage : ℚ) * (1/2)),
                 { result with message := result.message ++ " (reduced by defense)" })
              else (damage, result)
            let (p', _) := b.player.take_damage damage
            some (.acted enemy.name result, { b with player := p' }, rng)
          else some (.acted enemy.name result, b, rng)

/-- `Battle.attempt_flee` (`none` models the `ZeroDivisionError` Python
raises when no enemy is alive). -/
def attempt_flee (b : Battle) (rng : Rng) :
    Option (FleeOutcome × Battle × Rng) :=
  let alive := b.enemies.filter Enemy.is_alive
  if alive.length = 0 then none
  else
    let avg_enemy_agi : ℚ :=
      ((alive.map (fun e => e.attributes.agility)).sum : ℚ) / (alive.length : ℚ)
    let flee_chance := DamageCalculator.calculate_flee_chance
      b.player.attributes.agility (pyInt avg_enemy_agi)
    let (r, rng) := draw rng
    if r < flee_chance then some (.success, { b with result := .fled }, rng)
    else some (.failure, b, rng)

/-- `Battle.next_turn`. -/
def next_turn (b : Battle) : Battle :=
  { b with turn_number := b.turn_number + 1, player_defending := false }

end Battle

/-! ## Fixtures used by the concrete theorems and witnesses -/

/-- A level-appropriate warrior-path player used in concrete scenarios. -/
def testPlayer : PlayerCharacter :=
  { path := "tomas", attributes := ⟨12, 10, 10, 8, 8, 8⟩,
    derived_stats := ⟨100, 100, 50, 50, 50, 50, 150, 12⟩,
    abilities := [], effect_manager := ⟨[]⟩ }

/-- A goblin-like enemy used in concrete scenarios. -/
def testEnemy : Enemy :=
  { name := "Goblin", level := 1, attributes := ⟨9, 8, 13, 6, 5, 4⟩,
    base_damage := 7, abilities := [],
    derived_stats := ⟨90, 90, 45, 45, 130, 130, 140, 14⟩,
    xp_reward := 50, gold_reward := 10, effect_manager := ⟨[]⟩,
    is_defending := false }

/-! ## Helper lemmas about the effect table -/

/-- Replacing every entry of a given type keeps the position of the first
hit of `find?`, which now returns the replacement. -/
theorem find?_map_replace (l : List StatusEffect) (e ex : StatusEffect)
    (h : l.find? (fun x => x.effect_type == e.effect_type) = some ex) :
    (l.map (fun x => if x.effect_type == e.effect_type then e else x)).find?
        (fun x => x.effect_type == e.effect_type) = some e := by
  induction l with
  | nil => simp [List.find?] at h
  | cons a l ih =>
      by_cases ha : (a.effect_type == e.effect_type) = true
      · simp [List.find?, ha]
      · rw [List.find?_cons_of_neg _ (by simp_all)] at h
        simpa [List.find?, ha] using ih h

/-- A `find?` miss on `l` turns an append of `[e]` into a hit on `e`
(when the predicate accepts `e`). -/
theorem find?_append_singleton (l : List StatusEffect) (e : StatusEffect)
    (p : StatusEffect → Bool) (hp : p e = true)
    (h : l.find? p = none) :
    (l ++ [e]).find? p = some e := by
  induction l with
  | nil => simp [List.find?, hp]
  | cons a l ih =>
      by_cases ha : p a = true
      · rw [List.find?_cons_of_pos _ ha] at h; cases h
      · rw [List.find?_cons_of_neg _ (by simp_all)] at h
        simpa [List.find?, ha] using ih h

/-- `add_effect` on a present, strictly-weaker-in-some-field entry:
replaces it and reports a change. -/
theorem add_effect_found_pos (m : EffectManager) (e ex : StatusEffect)
    (h : m.get_effect e.effect_type = some ex)
    (hrep : e.potency > ex.potency ∨ e.duration > ex.duration) :
    (m.add_effect e).2 = true
    ∧ (m.add_effect e).1.get_effect e.effect_type = some e := by
  have hme : m.add_effect e =
      (⟨m.active_effects.map
          (fun x => if x.effect_type == e.effect_type then e else x)⟩, true) := by
    unfold EffectManager.add_effect
    rw [h]
    exact if_pos hrep
  rw [hme]
  exact ⟨rfl, find?_map_replace _ _ _ h⟩

/-- `add_effect` on a present, not-strictly-weaker entry: no-op. -/
theorem add_effect_found_neg (m : EffectManager) (e ex : StatusEffect)
    (h : m.get_effect e.effect_type = some ex)
    (hrep : ¬(e.potency > ex.potency ∨ e.duration > ex.duration)) :
    m.add_effect e = (m, false) := by
  unfold EffectManager.add_effect
  rw [h]
  exact if_neg hrep

/-- `add_effect` on an absent type: unconditional insert. -/
theorem add_effect_not_found (m : EffectManager) (e : StatusEffect)
    (h : m.get_effect e.effect_type = none) :
    (m.add_effect e).2 = true
    ∧ (m.add_effect e).1.get_effect e.effect_type = some e := by
  have hme : m.add_effect e = (⟨m.active_effects ++ [e]⟩, true) := by
    unfold EffectManager.add_effect
    rw [h]
  rw [hme]
  exact ⟨rfl, find?_append_singleton _ _ _ (by simp) h⟩

/-! ## Claim theorems -/

/-- C7: `add_effect` replaces an active same-type effect exactly when the
incoming potency or duration is strictly greater, is otherwise a no-op
returning `false`, inserts unconditionally when the type is absent, and the
returned boolean reports whether a change occurred; in particular
bleeding(3,5) followed by bleeding(2,5) leaves duration 3 / potency 5. -/
theorem add_effect_spec (m : EffectManager) (e : StatusEffect) :
    (∀ ex, m.get_effect e.effect_type = some ex →
      ((e.potency > ex.potency ∨ e.duration > ex.duration) →
          (m.add_effect e).2 = true
          ∧ (m.add_effect e).1.get_effect e.effect_type = some e)
      ∧ (¬(e.potency > ex.potency ∨ e.duration > ex.duration) →
          m.add_effect e = (m, false)))
    ∧ (m.get_effect e.effect_type = none →
        (m.add_effect e).2 = true
        ∧ (m.add_effect e).1.get_effect e.effect_type = some e)
    ∧ ((((⟨[]⟩ : EffectManager).add_effect (create_bleeding 3 5)).1.add_effect
          (create_bleeding 2 5))
        = (⟨[create_bleeding 3 5]⟩, false)) := by
  refine ⟨fun ex hex => ⟨fun hrep => add_effect_found_pos m e ex hex hrep,
    fun hrep => add_effect_found_neg m e ex hex hrep⟩,
    fun h => add_effect_not_found m e h, by decide⟩

/-- C7 witness: replacement case at a concrete input (shorter duration but
higher potency replaces). -/
theorem add_effect_spec_witness :
    ((⟨[create_bleeding 3 5]⟩ : EffectManager).add_effect (create_bleeding 2 9)).2 = true
    ∧ ((⟨[create_bleeding 3 5]⟩ : EffectManager).add_effect
        (create_bleeding 2 9)).1.get_effect .bleeding = some (create_bleeding 2 9) :=
  ((add_effect_spec ⟨[create_bleeding 3 5]⟩ (create_bleeding 2 9)).1
    (create_bleeding 3 5) (by decide)).1 (by decide)

/-- C5 counterexample: bleeding(duration 3, potency 5) is overwritten by
bleeding(duration 1, potency 10) — the stored duration drops from 3 to 1,
so the claimed "duration after ≥ duration before" fails. -/
theorem add_effect_duration_downgrade_cex :
    ((⟨[⟨.bleeding, 3, 5, "wound"⟩]⟩ : EffectManager).get_effect .bleeding)
      = some ⟨.bleeding, 3, 5, "wound"⟩
    ∧ (((⟨[⟨.bleeding, 3, 5, "wound"⟩]⟩ : EffectManager).add_effect
        ⟨.bleeding, 1, 10, "wound2"⟩).1.get_effect .bleeding)
      = some ⟨.bleeding, 1, 10, "wound2"⟩
    ∧ ¬((3 : ℤ) ≤ 1) := by decide

/-- C5 amended: when `add_effect` reports a change on an active same-type
effect it replaces the whole effect with the incoming one — which happens
exactly when incoming potency or duration is strictly greater, so at least
one of the two fields strictly increases while the other may decrease; when
it reports no change the table is untouched. -/
theorem add_effect_replacement_spec (m : EffectManager) (e ex : StatusEffect)
    (h : m.get_effect e.effect_type = some ex) :
    ((m.add_effect e).2 = true →
      (m.add_effect e).1.get_effect e.effect_type = some e
      ∧ (ex.potency < e.potency ∨ ex.duration < e.duration))
    ∧ ((m.add_effect e).2 = false → (m.add_effect e).1 = m) := by
  by_cases hrep : e.potency > ex.potency ∨ e.duration > ex.duration
  · have hp := add_effect_found_pos m e ex h hrep
    refine ⟨fun _ => ⟨hp.2, hrep⟩, fun hf => ?_⟩
    rw [hp.1] at hf
    simp at hf
  · have hn := add_effect_found_neg m e ex h hrep
    refine ⟨fun ht => ?_, fun _ => by simp [hn]⟩
    rw [hn] at ht
    simp at ht

/-- C5 amended witness at a concrete input. -/
theorem add_effect_replacement_spec_witness :
    (((⟨[⟨.bleeding, 3, 5, "wound"⟩]⟩ : EffectManager).add_effect
        ⟨.bleeding, 1, 10, "wound2"⟩).2 = true →
      ((⟨[⟨.bleeding, 3, 5, "wound"⟩]⟩ : EffectManager).add_effect
        ⟨.bleeding, 1, 10, "wound2"⟩).1.get_effect .bleeding
          = some ⟨.bleeding, 1, 10, "wound2"⟩
      ∧ ((5 : ℤ) < 10 ∨ (3 : ℤ) < 1))
    ∧ (((⟨[⟨.bleeding, 3, 5, "wound"⟩]⟩ : EffectManager).add_effect
        ⟨.bleeding, 1, 10, "wound2"⟩).2 = false →
      ((⟨[⟨.bleeding, 3, 5, "wound"⟩]⟩ : EffectManager).add_effect
        ⟨.bleeding, 1, 10, "wound2"⟩).1 = ⟨[⟨.bleeding, 3, 5, "wound"⟩]⟩) :=
  add_effect_replacement_spec ⟨[⟨.bleeding, 3, 5, "wound"⟩]⟩
    ⟨.bleeding, 1, 10, "wound2"⟩ ⟨.bleeding, 3, 5, "wound"⟩ (by decide)

/-- The spec's `clamp(x, lo, hi)`, written from the spec's words for the
refinement comparison in C9. -/
def clampSpec (x lo hi : ℚ) : ℚ := max lo (min hi x)

/-- C9: the computed hit chance lies in [0.10, 0.95], the critical chance
in [0, 0.50], and the flee chance equals
clamp(0.5 + 0.05·(playerAgility − enemyAgility), 0.20, 0.90), hence lies
in [0.20, 0.90]. -/
theorem chance_bounds_and_flee_formula (a d s pa ea : ℤ) :
    (1/10 ≤ DamageCalculator.calculate_hit_chance a d
      ∧ DamageCalculator.calculate_hit_chance a d ≤ 95/100)
    ∧ (0 ≤ DamageCalculator.calculate_crit_chance s
      ∧ DamageCalculator.calculate_crit_chance s ≤ 1/2)
    ∧ DamageCalculator.calculate_flee_chance pa ea
        = clampSpec (1/2 + (5/100) * ((pa : ℚ) - (ea : ℚ))) (2/10) (9/10)
    ∧ (2/10 ≤ DamageCalculator.calculate_flee_chance pa ea
      ∧ DamageCalculator.calculate_flee_chance pa ea ≤ 9/10) := by
  simp only [DamageCalculator.calculate_hit_chance,
    DamageCalculator.calculate_crit_chance, DamageCalculator.calculate_flee_chance,
    clampSpec, DamageCalculator.BASE_HIT_CHANCE, DamageCalculator.BASE_CRIT_CHANCE]
  refine ⟨⟨le_max_left _ _, max_le (by norm_num) (min_le_left _ _)⟩,
    ⟨le_min (by norm_num) ?_, min_le_left _ _⟩,
    ?_, le_max_left _ _, max_le (by norm_num) (min_le_left _ _)⟩
  · have hnn : (0 : ℚ) ≤ ((max 0 (s - 10) : ℤ) : ℚ) := by
      exact_mod_cast le_max_left 0 (s - 10)
    nlinarith [hnn]
  · rw [mul_comm ((pa : ℚ) - (ea : ℚ)) (5/100)]

/-- C8: a physical attack that registers a hit deals damage ≥ 1, and a
magical attack (which always hits) deals damage ≥ 1, for every input and
every outcome of the random draws. -/
theorem attack_damage_at_least_one (s d bd : ℤ) (t : AttackType) (rng : Rng)
    (ci cw dw mb : ℤ) (rng2 : Rng)
    (hhit : ((DamageCalculator.calculate_physical_damage s d bd t rng).1).2.1 = true) :
    1 ≤ ((DamageCalculator.calculate_physical_damage s d bd t rng).1).1
    ∧ 1 ≤ ((DamageCalculator.calculate_magical_damage ci cw dw mb rng2).1).1 := by
  constructor
  · unfold DamageCalculator.calculate_physical_damage at hhit ⊢
    rcases hd1 : draw rng with ⟨r1, rng1⟩
    simp only [hd1] at hhit ⊢
    by_cases hc : r1 < DamageCalculator.calculate_hit_chance s d
    · rw [if_pos hc]
      rcases hd2 : draw rng1 with ⟨r2, rng2'⟩
      simp only [hd2]
      rcases hd3 : uniformDraw (9/10) (11/10) rng2' with ⟨v, rng3⟩
      simp only [hd3]
      exact le_max_left _ _
    · rw [if_neg hc] at hhit
      simp at hhit
  · unfold DamageCalculator.calculate_magical_damage
    rcases hd1 : draw rng2 with ⟨r1, rng1⟩
    simp only [hd1]
    rcases hd2 : uniformDraw (9/10) (11/10) rng1 with ⟨v, rng2'⟩
    simp only [hd2]
    exact le_max_left _ _

/-- C8 witness: a hit with concrete stats and draws, plus the magical case. -/
theorem attack_damage_at_least_one_witness :
    ((DamageCalculator.calculate_physical_damage 12 5 15 .normal
        [0, 0, 1/2]).1).2.1 = true
    ∧ 1 ≤ ((DamageCalculator.calculate_physical_damage 12 5 15 .normal
        [0, 0, 1/2]).1).1
    ∧ 1 ≤ ((DamageCalculator.calculate_magical_damage 8 8 5 20 [0, 1/2]).1).1 := by
  have hhit : ((DamageCalculator.calculate_physical_damage 12 5 15 .normal
      [0, 0, 1/2]).1).2.1 = true := by
    norm_num [DamageCalculator.calculate_physical_damage,
      DamageCalculator.calculate_hit_chance, DamageCalculator.BASE_HIT_CHANCE,
      draw]
  have h := attack_damage_at_least_one 12 5 15 .normal [0, 0, 1/2]
    8 8 5 20 [0, 1/2] hhit
  exact ⟨hhit, h.1, h.2⟩

/-- C10: `attempt_flee` divides by the number of living enemies with no
guard: it is well-defined (`some`) whenever at least one enemy is alive,
and undefined (`none`, Python's `ZeroDivisionError`) when none is. -/
theorem attempt_flee_alive_divisor (b : Battle) (rng : Rng) :
    ((∃ e ∈ b.enemies, e.is_alive = true) → (b.attempt_flee rng).isSome = true)
    ∧ ((∀ e ∈ b.enemies, e.is_alive = false) → b.attempt_flee rng = none) := by
  constructor
  · rintro ⟨e, he, hal⟩
    unfold Battle.attempt_flee
    have hne : ¬((b.enemies.filter Enemy.is_alive).length = 0) := by
      intro hzero
      rw [List.length_eq_zero] at hzero
      have hmem : e ∈ b.enemies.filter Enemy.is_alive :=
        List.mem_filter.mpr ⟨he, hal⟩
      rw [hzero] at hmem
      cases hmem
    rw [if_neg hne]
    rcases hd : draw rng with ⟨r, rng'⟩
    simp only [hd]
    split <;> rfl
  · intro h
    unfold Battle.attempt_flee
    have hz : (b.enemies.filter Enemy.is_alive).length = 0 := by
      rw [List.length_eq_zero]
      refine List.eq_nil_iff_forall_not_mem.mpr fun e hmem => ?_
      rcases List.mem_filter.mp hmem with ⟨he, hal⟩
      rw [h e he] at hal
      cases hal
    rw [if_pos hz]

/-- C10 witness: one living enemy gives `some`; a battle whose only enemy
is at 0 health gives `none`. -/
theorem attempt_flee_alive_divisor_witness :
    ((Battle.attempt_flee { player := testPlayer, enemies := [testEnemy] }
        [0]).isSome = true)
    ∧ (Battle.attempt_flee { player := testPlayer, enemies :=
        [{ testEnemy with derived_stats :=
            { testEnemy.derived_stats with current_health := 0 } }] } [0]) = none :=
  ⟨(attempt_flee_alive_divisor { player := testPlayer, enemies := [testEnemy] }
      [0]).1 ⟨testEnemy, by decide, by decide⟩,
   (attempt_flee_alive_divisor { player := testPlayer, enemies :=
      [{ testEnemy with derived_stats :=
          { testEnemy.derived_stats with current_health := 0 } }] } [0]).2
      (by decide)⟩

/-- C2: `can_use` is not side-effect-free — on a player with 50 stamina and
the basic Attack (stamina cost 10) it answers `(true, "")` and debits the
stamina to 40 during the legality check itself. -/
theorem can_use_debits_stamina_on_success :
    (WarriorActions.normal_attack.can_use testPlayer).1 = (true, "")
    ∧ (WarriorActions.normal_attack.can_use
        testPlayer).2.derived_stats.current_stamina = 40
    ∧ testPlayer.derived_stats.current_stamina = 50 := by decide

/-- C1: a failing `player_turn` call can mutate the battle — requesting
"Attack" against target index 5 (out of range) returns the Invalid-target
error, yet the player's stamina has been debited from 50 to 40 by the
`can_use` check that ran before target validation. -/
theorem player_turn_invalid_target_debits_stamina :
    (Battle.player_turn { player := testPlayer, enemies := [testEnemy] }
        "Attack" 5 []).1 = .error "Invalid target"
    ∧ (Battle.player_turn { player := testPlayer, enemies := [testEnemy] }
        "Attack" 5 []).2.1.player.derived_stats.current_stamina = 40
    ∧ testPlayer.derived_stats.current_stamina = 50 := by decide

/-- C3 counterexample: with the battle already terminal (`Fled`),
`enemy_turn` neither returns a battle-already-over error nor leaves state
unchanged — it ticks the stunned enemy's effect (duration 2 → 1) and
returns the normal incapacitated report. -/
theorem enemy_turn_ignores_terminal_result_cex :
    Battle.enemy_turn
        { player := testPlayer,
          enemies := [{ testEnemy with effect_manager := ⟨[create_stun 2]⟩ }],
          result := .fled } 0 []
      = some (.incapacitated "Goblin" "Goblin is incapacitated and cannot act!",
          { player := testPlayer,
            enemies := [{ testEnemy with effect_manager := ⟨[create_stun 1]⟩ }],
            result := .fled }, [])
    ∧ ({ testEnemy with effect_manager := ⟨[create_stun 1]⟩ } : Enemy)
        ≠ { testEnemy with effect_manager := ⟨[create_stun 2]⟩ } := by decide

/-- C3 amended: only `player_turn` checks for a terminal result; it rejects
with the battle-already-over error and changes nothing. -/
theorem player_turn_rejects_when_battle_over (b : Battle)
    (hb : b.result ≠ .ongoing) (name : String) (ti : ℤ) (rng : Rng) :
    Battle.player_turn b name ti rng = (.error "Battle is already over", b, rng) := by
  unfold Battle.player_turn
  rw [if_pos hb]

/-- C3 amended witness at a concrete terminal battle. -/
theorem player_turn_rejects_when_battle_over_witness :
    Battle.player_turn
        { player := testPlayer, enemies := [testEnemy], result := .fled }
        "Attack" 0 []
      = (.error "Battle is already over",
         { player := testPlayer, enemies := [testEnemy], result := .fled }, []) :=
  player_turn_rejects_when_battle_over _ (by decide) "Attack" 0 []

/-- C6 counterexample: an enemy at 5/90 health with regenerating(potency 10)
ticks a −10 delta, yet its health after `enemy_turn` is still 5 — the
negative delta is filtered out and never applied as healing (had it been
applied, health would be min(90, 5+10) = 15). -/
theorem enemy_turn_drops_regen_healing_cex :
    (EffectManager.tick_effects ⟨[create_regeneration 2 10, create_stun 2]⟩).1
      = [(.regenerating, -10)]
    ∧ (Battle.enemy_turn
        { player := testPlayer,
          enemies := [{ testEnemy with
            derived_stats := { testEnemy.derived_stats with current_health := 5 },
            effect_manager := ⟨[create_regeneration 2 10, create_stun 2]⟩ }] }
        0 []).map
        (fun out =>
          (out.2.1.enemies.getD 0 Battle.dummyEnemy).derived_stats.current_health)
      = some 5
    ∧ min (90 : ℤ) (5 + 10) ≠ 5 := by decide

/-- C4: a stunned effect with duration 1 does NOT incapacitate — the very
next `enemy_turn` ticks it to 0 and removes it before the incapacitation
check runs, so the enemy acts normally on that turn (here: a normal attack
that misses), its effect table ending empty. -/
theorem stun_duration_one_never_incapacitates :
    Battle.enemy_turn
        { player := testPlayer,
          enemies := [{ testEnemy with effect_manager := ⟨[create_stun 1]⟩ }] }
        0 [3/5, 3/5, 99/100]
      = some (.acted "Goblin"
          { action := "attack", damage := 0, hit := false, critical := false,
            message := "Goblin's attack misses!" },
          { player := testPlayer, enemies := [testEnemy] }, []) := by
  have h1 : EffectManager.tick_effects ⟨[create_stun 1]⟩ = ([], ⟨[]⟩) := by decide
  have hET : ({ testEnemy with effect_manager := (⟨[]⟩ : EffectManager) } : Enemy)
      = testEnemy := by decide
  have halive : ({ testEnemy with
      effect_manager := (⟨[create_stun 1]⟩ : EffectManager) } : Enemy).is_alive
      = true := by decide
  have hincap : (⟨[]⟩ : EffectManager).is_incapacitated = false := by decide
  have hs1 : ("attack" : String) ≠ "incapacitated" := by decide
  have hs2 : ("attack" : String) ≠ "defend" := by decide
  have htei : testEnemy.effect_manager.is_incapacitated = false := by decide
  have hca : ∀ q : ℚ, EnemyAI.choose_action testEnemy q [3/5, 3/5, 99/100]
      = ("attack", [99/100]) := by
    intro q
    norm_num [EnemyAI.choose_action, EnemyAI.aggression,
      EffectManager.is_incapacitated, EffectManager.has_effect,
      EffectManager.get_effect, testEnemy, draw, List.find?]
  have hex : EnemyAI.execute_action testEnemy "attack" 13 [99/100]
      = ({ action := "attack", damage := 0, hit := false, critical := false,
           message := "Goblin's attack misses!" }, testEnemy, []) := by
    norm_num [EnemyAI.execute_action, EffectManager.get_damage_modifier,
      EffectManager.has_effect, EffectManager.get_effect,
      DamageCalculator.calculate_physical_damage,
      DamageCalculator.calculate_hit_chance, DamageCalculator.BASE_HIT_CHANCE,
      testEnemy, pyInt, draw, List.find?, hs1, hs2] <;> decide
  have hdef : PlayerCharacter.combat_defense testPlayer = 13 := by decide
  unfold Battle.enemy_turn
  simp [List.get?, h1, hET, halive, hincap, htei, hca, hdef, hex] <;> decide

/-- `EnemyAI.execute_action` never touches the enemy's derived stats (it can
only set the defending flag). -/
theorem execute_action_preserves_derived_stats (e : Enemy) (a : String)
    (td : ℤ) (rng : Rng) :
    ((EnemyAI.execute_action e a td rng).2.1).derived_stats = e.derived_stats := by
  unfold EnemyAI.execute_action
  split_ifs <;> (try split) <;> rfl

/-- A regenerating entry contributes minus its potency to the tick results. -/
theorem tick_results_regen (m : EffectManager) (eff : StatusEffect)
    (hmem : eff ∈ m.active_effects) (ht : eff.effect_type = .regenerating) :
    (eff.effect_type, -eff.potency) ∈ m.tick_effects.1 := by
  unfold EffectManager.tick_effects
  refine List.mem_filterMap.mpr ⟨eff, hmem, ?_⟩
  unfold EffectManager.tickDelta
  rw [ht]
  simp

/-- C6 amended: `enemy_turn` ticks the enemy's effects first; the positive
deltas (the damage-over-time effects) are summed and applied as damage via
`take_damage`, but the negative delta produced by regenerating is filtered
out and never applied — the enemy receives no healing from it. -/
theorem enemy_turn_effect_damage_spec (b : Battle) (i : ℕ) (rng : Rng)
    (e : Enemy) (hget : b.enemies.get? i = some e) (halive : e.is_alive = true) :
    (∀ eff ∈ e.effect_manager.active_effects, eff.effect_type = .regenerating →
        (EffectType.regenerating, -eff.potency) ∈ e.effect_manager.tick_effects.1)
    ∧ (Battle.enemy_turn b i rng).map
        (fun out => (out.2.1.enemies.get? i).map
          (fun e2 => e2.derived_stats.current_health))
      = some (some (
          if 0 < (((e.effect_manager.tick_effects.1).map Prod.snd).filter
              (fun d => decide (0 < d))).sum then
            (({ e with effect_manager := e.effect_manager.tick_effects.2
              }).take_damage
              ((((e.effect_manager.tick_effects.1).map Prod.snd).filter
                (fun d => decide (0 < d))).sum)).1.derived_stats.current_health
          else e.derived_stats.current_health)) := by
  have hi : i < b.enemies.length := by
    by_contra hlen
    rw [List.get?_eq_none.mpr (le_of_not_lt hlen)] at hget
    cases hget
  have hi2 : ∀ x : Enemy, i < (b.enemies.set i x).length := fun x => by
    rw [List.length_set]; exact hi
  constructor
  · intro eff hmem ht
    have hr := tick_results_regen e.effect_manager eff hmem ht
    rwa [ht] at hr
  · unfold Battle.enemy_turn
    rw [hget]
    rcases h2 : e.effect_manager.tick_effects with ⟨res, em'⟩
    simp only [halive, Bool.not_true, Bool.false_eq_true, if_false, h2]
    by_cases hed : 0 < ((res.map Prod.snd).filter (fun d => decide (0 < d))).sum
    · simp only [if_pos hed]
      split
      · simp only [Option.map_some']
        rw [List.get?_set_eq_of_lt _ hi, Option.map_some']
      · repeat' split
        all_goals
          simp only [Option.map_some']
          rw [List.get?_set_eq_of_lt _ (hi2 _), Option.map_some',
            execute_action_preserves_derived_stats]
    · simp only [if_neg hed]
      split
      · simp only [Option.map_some']
        rw [List.get?_set_eq_of_lt _ hi, Option.map_some']
      · repeat' split
        all_goals
          simp only [Option.map_some']
          rw [List.get?_set_eq_of_lt _ (hi2 _), Option.map_some',
            execute_action_preserves_derived_stats]

/-- C6 amended witness: an enemy with no active effects takes no effect
damage and no healing — its health is unchanged by the tick phase. -/
theorem enemy_turn_effect_damage_spec_witness :
    (Battle.enemy_turn { player := testPlayer, enemies := [testEnemy] } 0 []).map
        (fun out => (out.2.1.enemies.get? 0).map
          (fun e2 => e2.derived_stats.current_health))
      = some (some 90) := by
  have h := (enemy_turn_effect_damage_spec
    { player := testPlayer, enemies := [testEnemy] } 0 [] testEnemy
    (by decide) (by decide)).2
  rw [h]
  decide

end Magician